import Mathlib

/-!
Verification of the fitness-coach agent pipeline (`ai-agent-pipeline.py`).

The pure tool functions (`get_exercise_info`, `calculate_calories`), the
guardrail dispatch logic (`fitness_goal_guardrail`) and the demo driver's
per-query result dispatch are shallowly embedded below.

Modelling conventions:
* Python floats are modelled as exact rationals (`ℚ`); every constant in the
  source (6.25, 1.55, the percentage tables, …) is an exact decimal.
* Python 3 `round` (nearest integer, ties to even) is modelled by `pyRound`.
* Python `str.lower` is modelled character-wise by `pyLower` (the strings the
  program compares against are ASCII).
* `json.dumps` serialization is abstracted away: the embedding returns the
  structured payload that the source serializes.
* The external agent-runtime calls (`Runner.run`) are opaque to this
  repository; where a function branches on their outcome, the outcome is an
  explicit parameter (`Except`/inductive tag), and the function models only
  the dispatch logic of the source.
-/

set_option maxRecDepth 8000

namespace FitnessPipeline

/-- Python 3 `round` on an exact value: nearest integer, ties go to even. -/
def pyRound (q : ℚ) : ℤ :=
  if q - q.floor < 1/2 then q.floor
  else if 1/2 < q - q.floor then q.floor + 1
  else if q.floor % 2 = 0 then q.floor else q.floor + 1

/-- Python `str.lower`, modelled character-wise (ASCII). -/
def pyLower (s : String) : String := String.mk (s.data.map Char.toLower)

/-! ### Structured output schemas (source lines 17-36) -/

/-- `WorkoutPlan` (pydantic model, source lines 17-22). -/
structure WorkoutPlan where
  focus_area : String
  difficulty : String
  exercises : List String
  notes : String
deriving DecidableEq

/-- `MealPlan` (pydantic model, source lines 24-31). -/
structure MealPlan where
  daily_calories : ℤ
  protein_grams : ℤ
  carbs_grams : ℤ
  fat_grams : ℤ
  meal_suggestions : List String
  notes : String
deriving DecidableEq

/-- `GoalAnalysis` (pydantic model, source lines 33-36). -/
structure GoalAnalysis where
  is_realistic : Bool
  reasoning : String
deriving DecidableEq

/-- The `GuardrailFunctionOutput` record the guardrail function returns. -/
structure GuardrailFunctionOutput where
  output_info : GoalAnalysis
  tripwire_triggered : Bool
deriving DecidableEq

/-! ### Tool: `get_exercise_info` (source lines 52-96) -/

/-- The `"chest"` entry of `exercise_data` (source lines 56-61). -/
def chest_exercises : List String :=
  ["Push-ups: 3 sets of 10-15 reps",
   "Bench Press: 3 sets of 8-12 reps",
   "Chest Flyes: 3 sets of 12-15 reps",
   "Incline Push-ups: 3 sets of 10-15 reps"]

/-- The `"back"` entry of `exercise_data` (source lines 62-67). -/
def back_exercises : List String :=
  ["Pull-ups: 3 sets of 6-10 reps",
   "Bent-over Rows: 3 sets of 8-12 reps",
   "Lat Pulldowns: 3 sets of 10-12 reps",
   "Superman Holds: 3 sets of 30 seconds"]

/-- The `"legs"` entry of `exercise_data` (source lines 68-73). -/
def legs_exercises : List String :=
  ["Squats: 3 sets of 10-15 reps",
   "Lunges: 3 sets of 10 per leg",
   "Calf Raises: 3 sets of 15-20 reps",
   "Glute Bridges: 3 sets of 15 reps"]

/-- The `"arms"` entry of `exercise_data` (source lines 74-79). -/
def arms_exercises : List String :=
  ["Bicep Curls: 3 sets of 10-12 reps",
   "Tricep Dips: 3 sets of 10-15 reps",
   "Hammer Curls: 3 sets of 10-12 reps",
   "Overhead Tricep Extensions: 3 sets of 10-12 reps"]

/-- The `"core"` entry of `exercise_data` (source lines 80-85). -/
def core_exercises : List String :=
  ["Planks: 3 sets of 30-60 seconds",
   "Crunches: 3 sets of 15-20 reps",
   "Russian Twists: 3 sets of 20 total reps",
   "Mountain Climbers: 3 sets of 20 total reps"]

/-- The `exercise_data` dictionary (source lines 55-86), as an association
list in the source's insertion order. -/
def exercise_data : List (String × List String) :=
  [("chest", chest_exercises),
   ("back", back_exercises),
   ("legs", legs_exercises),
   ("arms", arms_exercises),
   ("core", core_exercises)]

/-- The two shapes `get_exercise_info` can return: the structured JSON payload
on a hit, or the plain "not available" string on a miss. -/
inductive ExerciseLookupResult where
  | found (muscle_group : String) (exercises : List String) (recommendation : String)
  | unavailable (message : String)
deriving DecidableEq

/-- `get_exercise_info` (source lines 52-96): lower-case the input, look it up
in `exercise_data`, and return either the structured record or the "not
available" message (both formatted with the lower-cased name, as in the
source, where `muscle_group` is reassigned before either use). -/
def get_exercise_info (muscle_group : String) : ExerciseLookupResult :=
  match exercise_data.lookup (pyLower muscle_group) with
  | some exercises =>
      .found (pyLower muscle_group) exercises
        ("For " ++ pyLower muscle_group ++
          " training, complete exercises with 60-90 seconds rest between sets.")
  | none =>
      .unavailable ("Exercise information for " ++ pyLower muscle_group ++ " is not available.")

/-! ### Tool: `calculate_calories` (source lines 98-143) -/

/-- BMR by the Mifflin-St Jeor equation (source lines 102-105). -/
def bmr (weight_kg height_cm : ℚ) (age : ℤ) (gender : String) : ℚ :=
  if pyLower gender = "male" ∨ pyLower gender = "m" then
    10 * weight_kg + 6.25 * height_cm - 5 * (age : ℚ) + 5
  else
    10 * weight_kg + 6.25 * height_cm - 5 * (age : ℚ) - 161

/-- TDEE with the fixed moderate activity factor (source line 108). -/
def tdee (weight_kg height_cm : ℚ) (age : ℤ) (gender : String) : ℚ :=
  bmr weight_kg height_cm age gender * 1.55

/-- Goal-adjusted calorie target (source lines 111-116). -/
def calorie_target (goal : String) (weight_kg height_cm : ℚ) (age : ℤ) (gender : String) : ℚ :=
  if pyLower goal = "weight loss" then tdee weight_kg height_cm age gender - 500
  else if pyLower goal = "muscle gain" then tdee weight_kg height_cm age gender + 300
  else tdee weight_kg height_cm age gender

/-- The macro percentage table `(protein_pct, fat_pct, carb_pct)` selected by
goal (source lines 119-124). -/
def percent_split (goal : String) : ℚ × ℚ × ℚ :=
  if pyLower goal = "weight loss" then (0.40, 0.30, 0.30)
  else if pyLower goal = "muscle gain" then (0.30, 0.25, 0.45)
  else (0.30, 0.30, 0.40)

/-- The structured payload `calculate_calories` serializes (source lines
134-142). -/
structure CalorieResult where
  goal : String
  daily_calories : ℤ
  protein_grams : ℤ
  fat_grams : ℤ
  carbs_grams : ℤ
deriving DecidableEq

/-- `calculate_calories` (source lines 98-143): BMR → TDEE → goal-adjusted
target → macro split, each macro converted to grams (protein and carbs at
4 kcal/g, fat at 9 kcal/g) and rounded independently. -/
def calculate_calories (goal : String) (weight_kg height_cm : ℚ) (age : ℤ) (gender : String) :
    CalorieResult :=
  { goal := goal
    daily_calories := pyRound (calorie_target goal weight_kg height_cm age gender)
    protein_grams :=
      pyRound (calorie_target goal weight_kg height_cm age gender * (percent_split goal).1 / 4)
    fat_grams :=
      pyRound (calorie_target goal weight_kg height_cm age gender * (percent_split goal).2.1 / 9)
    carbs_grams :=
      pyRound (calorie_target goal weight_kg height_cm age gender * (percent_split goal).2.2 / 4) }

/-! ### Guardrail: `fitness_goal_guardrail` (source lines 155-169) -/

/-- `fitness_goal_guardrail` (source lines 155-169). The external
`Runner.run`/`final_output_as` call chain inside the `try` block is opaque to
this repository, so its outcome is the explicit parameter: `Except.ok` is a
successful `GoalAnalysis`, `Except.error` is any raised exception (carrying
its message). The function models the source's dispatch: on success the
tripwire is the negation of `is_realistic`; on any exception it swallows the
error and fails open. It is a total function, so it never raises to its
caller. -/
def fitness_goal_guardrail (runResult : Except String GoalAnalysis) : GuardrailFunctionOutput :=
  match runResult with
  | Except.ok final_output =>
      { output_info := final_output
        tripwire_triggered := !final_output.is_realistic }
  | Except.error e =>
      { output_info := { is_realistic := true, reasoning := "Error analyzing goal: " ++ e }
        tripwire_triggered := false }

/-! ### Run driver: the per-query dispatch of `demo` (source lines 235-260) -/

/-- The runtime type of `result.final_output` that `demo` inspects with
`isinstance` (source lines 243-248). -/
inductive FinalOutput where
  | workout (plan : WorkoutPlan)
  | meal (plan : MealPlan)
  | general (text : String)
deriving DecidableEq

/-- What one `Runner.run` call inside `demo`'s `try` block can do, as seen by
the `except` clauses: succeed with a final output, raise
`InputGuardrailTripwireTriggered` (whose `guardrail_output.reasoning` may or
may not be present, hence the `Option`), or raise any other exception. -/
inductive QueryOutcome where
  | success (finalOutput : FinalOutput)
  | guardrailTripped (reasoning : Option String)
  | failure (message : String)
deriving DecidableEq

/-- The five mutually exclusive renderings `demo` can print for one query
(source lines 243-260). -/
inductive Rendered where
  | workoutSpecialist (plan : WorkoutPlan)
  | nutritionSpecialist (plan : MealPlan)
  | generalCoach (text : String)
  | guardrailRejection (reason : String)
  | errorReport (message : String)
deriving DecidableEq

/-- The body of `demo`'s per-query `try`/`except` dispatch (source lines
239-260): successes are rendered by the runtime type of the final output,
`InputGuardrailTripwireTriggered` is caught and rendered with the rejection
reasoning (or the fixed fallback message when no reasoning is attached), and
any other exception is caught and rendered as an error message. -/
def handle_query (outcome : QueryOutcome) : Rendered :=
  match outcome with
  | .success (.workout p) => .workoutSpecialist p
  | .success (.meal p) => .nutritionSpecialist p
  | .success (.general t) => .generalCoach t
  | .guardrailTripped (some r) => .guardrailRejection r
  | .guardrailTripped none =>
      .guardrailRejection "An unrealistic or unsafe fitness goal was detected."
  | .failure m => .errorReport m

/-- The `for query in queries` loop of `demo` (source lines 235-260): every
query is dispatched in order, and each query's rendering is independent of the
others — an error or a guardrail rejection never aborts the loop. -/
def demo_run (outcomes : List QueryOutcome) : List Rendered :=
  outcomes.map handle_query

/-- Tags a `Rendered` value with which of the five dispatch branches produced
it, for stating mutual exclusivity of the branches. -/
def branch_count (r : Rendered) : Nat :=
  (match r with | .workoutSpecialist _ => 1 | _ => 0) +
  (match r with | .nutritionSpecialist _ => 1 | _ => 0) +
  (match r with | .generalCoach _ => 1 | _ => 0) +
  (match r with | .guardrailRejection _ => 1 | _ => 0) +
  (match r with | .errorReport _ => 1 | _ => 0)

/-- The list of supported muscle groups (the keys of `exercise_data`). -/
def supported_groups : List String := ["chest", "back", "legs", "arms", "core"]

/-! ### Helper lemmas -/

theorem ratFloor_le (q : ℚ) : (q.floor : ℚ) ≤ q :=
  Rat.le_floor.mp le_rfl

theorem lt_ratFloor_add_one (q : ℚ) : q < (q.floor : ℚ) + 1 := by
  by_contra hc
  push_neg at hc
  have h : ((q.floor + 1 : ℤ) : ℚ) ≤ q := by push_cast; linarith
  have := Rat.le_floor.mpr h
  omega

/-- `pyRound` never moves a value by more than one half. -/
theorem abs_pyRound_sub_le (q : ℚ) : |((pyRound q : ℤ) : ℚ) - q| ≤ 1/2 := by
  have h1 := ratFloor_le q
  have h2 := lt_ratFloor_add_one q
  unfold pyRound
  split_ifs with ha hb hc <;>
    · rw [abs_le]; push_cast; constructor <;> linarith

/-- `pyRound` of a non-negative value is non-negative. -/
theorem pyRound_nonneg (q : ℚ) (hq : 0 ≤ q) : 0 ≤ pyRound q := by
  have hf : 0 ≤ q.floor := Rat.le_floor.mpr (by exact_mod_cast hq)
  unfold pyRound
  split_ifs <;> omega

/-- `calculate_calories` written out field by field. -/
theorem calculate_calories_eq (goal gender : String) (w h : ℚ) (a : ℤ) :
    calculate_calories goal w h a gender =
      { goal := goal
        daily_calories := pyRound (calorie_target goal w h a gender)
        protein_grams := pyRound (calorie_target goal w h a gender * (percent_split goal).1 / 4)
        fat_grams := pyRound (calorie_target goal w h a gender * (percent_split goal).2.1 / 9)
        carbs_grams := pyRound (calorie_target goal w h a gender * (percent_split goal).2.2 / 4) } :=
  rfl

/-- The three possible rows of the macro percentage table. -/
theorem percent_split_cases (goal : String) :
    percent_split goal = (0.40, 0.30, 0.30) ∨
    percent_split goal = (0.30, 0.25, 0.45) ∨
    percent_split goal = (0.30, 0.30, 0.40) := by
  unfold percent_split
  split_ifs with h1 h2
  · exact Or.inl rfl
  · exact Or.inr (Or.inl rfl)
  · exact Or.inr (Or.inr rfl)

/-- Independent per-macro rounding keeps the macro total within nine
kcal-equivalents of the rounded calorie target, whenever the percentage row
sums to 1. -/
theorem macro_total_bound (t pp fp cp : ℚ) (hsum : pp + fp + cp = 1) :
    |4 * pyRound (t * pp / 4) + 9 * pyRound (t * fp / 9) + 4 * pyRound (t * cp / 4) - pyRound t|
      ≤ 9 := by
  have h1 := abs_pyRound_sub_le (t * pp / 4)
  have h2 := abs_pyRound_sub_le (t * fp / 9)
  have h3 := abs_pyRound_sub_le (t * cp / 4)
  have h4 := abs_pyRound_sub_le t
  rw [abs_le] at h1 h2 h3 h4
  have ht : t * pp + t * fp + t * cp = t := by
    rw [← mul_add, ← mul_add, hsum, mul_one]
  have key : |((4 * pyRound (t * pp / 4) + 9 * pyRound (t * fp / 9) + 4 * pyRound (t * cp / 4)
      - pyRound t : ℤ) : ℚ)| ≤ 9 := by
    rw [abs_le]
    push_cast
    obtain ⟨h1a, h1b⟩ := h1
    obtain ⟨h2a, h2b⟩ := h2
    obtain ⟨h3a, h3b⟩ := h3
    obtain ⟨h4a, h4b⟩ := h4
    constructor <;> linarith
  exact_mod_cast key

/-! ### Claim theorems -/

/-- C1 (counterexample): at goal="weight loss", weight=80, height=175, age=28,
gender="male" the code returns daily_calories = 2226, not the 2311 the spec's
worked example states (the spec mis-evaluates its own formula:
10*80 + 6.25*175 - 5*28 + 5 = 1758.75, not 1813.75). -/
theorem c1_example_value_counterexample :
    (calculate_calories "weight loss" 80 175 28 "male").daily_calories ≠ 2311 ∧
    (calculate_calories "weight loss" 80 175 28 "male").daily_calories = 2226 :=
  ⟨of_decide_eq_false (by with_unfolding_all rfl), by with_unfolding_all rfl⟩

/-- C1 (amended): for every goal, weight, height, age and gender,
`calculate_calories` computes BMR by Mifflin-St Jeor (male/m branch is
case-insensitive), multiplies by 1.55 for TDEE, and adjusts by −500 for
"weight loss", +300 for "muscle gain", else 0; and at the spec's example input
BMR = 1758.75, TDEE = 2726.0625, target = 2226.0625, daily_calories = 2226. -/
theorem c1_daily_calories_formula :
    (∀ (goal gender : String) (w h : ℚ) (a : ℤ),
      (calculate_calories goal w h a gender).daily_calories =
        pyRound
          (let b : ℚ :=
            if pyLower gender = "male" ∨ pyLower gender = "m" then
              10 * w + 6.25 * h - 5 * (a : ℚ) + 5
            else
              10 * w + 6.25 * h - 5 * (a : ℚ) - 161
          let t : ℚ := b * 1.55
          if pyLower goal = "weight loss" then t - 500
          else if pyLower goal = "muscle gain" then t + 300
          else t)) ∧
    bmr 80 175 28 "male" = 1758.75 ∧
    tdee 80 175 28 "male" = 2726.0625 ∧
    calorie_target "weight loss" 80 175 28 "male" = 2226.0625 ∧
    (calculate_calories "weight loss" 80 175 28 "male").daily_calories = 2226 := by
  refine ⟨fun goal gender w h a => rfl, ?_, ?_, ?_, ?_⟩ <;> with_unfolding_all rfl

/-- C2: the macro percentages are selected by the lower-cased goal
(weight loss 40/30/30, muscle gain 30/25/45, otherwise 30/30/40), and each
macro's calorie share is converted to grams (protein and carbs at 4 kcal/g,
fat at 9 kcal/g), rounded to the nearest integer independently per macro. -/
theorem c2_macro_split :
    ∀ (goal gender : String) (w h : ℚ) (a : ℤ),
      (calculate_calories goal w h a gender).protein_grams =
        pyRound (calorie_target goal w h a gender *
          (if pyLower goal = "weight loss" then (0.40 : ℚ)
           else if pyLower goal = "muscle gain" then 0.30 else 0.30) / 4) ∧
      (calculate_calories goal w h a gender).fat_grams =
        pyRound (calorie_target goal w h a gender *
          (if pyLower goal = "weight loss" then (0.30 : ℚ)
           else if pyLower goal = "muscle gain" then 0.25 else 0.30) / 9) ∧
      (calculate_calories goal w h a gender).carbs_grams =
        pyRound (calorie_target goal w h a gender *
          (if pyLower goal = "weight loss" then (0.30 : ℚ)
           else if pyLower goal = "muscle gain" then 0.45 else 0.40) / 4) := by
  intro goal gender w h a
  by_cases h1 : pyLower goal = "weight loss" <;> by_cases h2 : pyLower goal = "muscle gain" <;>
    simp [calculate_calories_eq, percent_split, h1, h2]

/-- C4: when the underlying evaluation raises any exception, the guardrail
swallows it and returns `is_realistic = true` with an explanatory reasoning
string and `tripwire_triggered = false`; being a total function of the
evaluation outcome, it never raises to its caller. -/
theorem c4_guardrail_fail_open :
    ∀ e : String,
      fitness_goal_guardrail (Except.error e) =
        { output_info := { is_realistic := true, reasoning := "Error analyzing goal: " ++ e }
          tripwire_triggered := false } :=
  fun _ => rfl

/-- C5: when the underlying goal analysis succeeds, the tripwire triggers
exactly when the analysis says the goal is unrealistic. -/
theorem c5_tripwire_iff_unrealistic :
    ∀ analysis : GoalAnalysis,
      ((fitness_goal_guardrail (Except.ok analysis)).tripwire_triggered = true ↔
        analysis.is_realistic = false) := by
  intro a
  cases ha : a.is_realistic <;> simp [fitness_goal_guardrail, ha]

/-- C7: `calculate_calories` is deterministic — two invocations with equal
goal, weight, height, age and gender arguments return equal results. -/
theorem c7_deterministic (g₁ g₂ gen₁ gen₂ : String) (w₁ w₂ h₁ h₂ : ℚ) (a₁ a₂ : ℤ)
    (hg : g₁ = g₂) (hw : w₁ = w₂) (hh : h₁ = h₂) (ha : a₁ = a₂) (hgen : gen₁ = gen₂) :
    calculate_calories g₁ w₁ h₁ a₁ gen₁ = calculate_calories g₂ w₂ h₂ a₂ gen₂ := by
  subst hg hw hh ha hgen; rfl

/-- C7 witness: the determinism theorem applied at the demo's own input. -/
theorem c7_deterministic_witness :
    calculate_calories "weight loss" 80 175 28 "male" =
      calculate_calories "weight loss" 80 175 28 "male" :=
  c7_deterministic "weight loss" "weight loss" "male" "male" 80 80 175 175 28 28
    rfl rfl rfl rfl rfl

/-- C8: in the run driver, a guardrail rejection is caught distinctly from
generic failures and rendered with its reasoning (or the fixed fallback when
none is attached), any other exception becomes a printed error message, and
processing always continues with the remaining queries. -/
theorem c8_driver_error_isolation :
    ∀ (q : QueryOutcome) (rest : List QueryOutcome),
      demo_run (q :: rest) = handle_query q :: demo_run rest ∧
      (∀ r, handle_query (.guardrailTripped (some r)) = .guardrailRejection r) ∧
      handle_query (.guardrailTripped none) =
        .guardrailRejection "An unrealistic or unsafe fitness goal was detected." ∧
      (∀ m, handle_query (.failure m) = .errorReport m) ∧
      (demo_run (q :: rest)).length = rest.length + 1 :=
  fun _ rest => ⟨rfl, fun _ => rfl, rfl, fun _ => rfl, by simp [demo_run]⟩

/-- C9: each query's outcome takes exactly one of the five dispatch branches
of the driver (workout rendering, meal rendering, free-text rendering,
rejection rendering, error rendering). -/
theorem c9_single_branch : ∀ o : QueryOutcome, branch_count (handle_query o) = 1 := by
  intro o
  cases o with
  | success f => cases f <;> rfl
  | guardrailTripped r => cases r <;> rfl
  | failure m => rfl

/-- C3: an input whose lower-cased form is a supported muscle group yields the
structured record (muscle group, a non-empty ordered exercise list, a
recommendation string); any other input yields the plain "not available"
message — so the branch taken is case-insensitive in the input. -/
theorem c3_exercise_lookup (s : String) :
    (pyLower s ∈ supported_groups →
      ∃ exs r, get_exercise_info s = .found (pyLower s) exs r ∧ exs ≠ []) ∧
    (pyLower s ∉ supported_groups →
      get_exercise_info s =
        .unavailable ("Exercise information for " ++ pyLower s ++ " is not available.")) := by
  constructor
  · intro hmem
    simp only [supported_groups, List.mem_cons, List.not_mem_nil, or_false] at hmem
    rcases hmem with h | h | h | h | h
    · exact ⟨chest_exercises,
        "For chest training, complete exercises with 60-90 seconds rest between sets.",
        by unfold get_exercise_info; rw [h]; rfl, by decide⟩
    · exact ⟨back_exercises,
        "For back training, complete exercises with 60-90 seconds rest between sets.",
        by unfold get_exercise_info; rw [h]; rfl, by decide⟩
    · exact ⟨legs_exercises,
        "For legs training, complete exercises with 60-90 seconds rest between sets.",
        by unfold get_exercise_info; rw [h]; rfl, by decide⟩
    · exact ⟨arms_exercises,
        "For arms training, complete exercises with 60-90 seconds rest between sets.",
        by unfold get_exercise_info; rw [h]; rfl, by decide⟩
    · exact ⟨core_exercises,
        "For core training, complete exercises with 60-90 seconds rest between sets.",
        by unfold get_exercise_info; rw [h]; rfl, by decide⟩
  · intro hmem
    simp only [supported_groups, List.mem_cons, List.not_mem_nil, or_false, not_or] at hmem
    obtain ⟨h1, h2, h3, h4, h5⟩ := hmem
    have b1 : (pyLower s == "chest") = false := beq_eq_false_iff_ne.mpr h1
    have b2 : (pyLower s == "back") = false := beq_eq_false_iff_ne.mpr h2
    have b3 : (pyLower s == "legs") = false := beq_eq_false_iff_ne.mpr h3
    have b4 : (pyLower s == "arms") = false := beq_eq_false_iff_ne.mpr h4
    have b5 : (pyLower s == "core") = false := beq_eq_false_iff_ne.mpr h5
    unfold get_exercise_info
    simp [exercise_data, List.lookup, b1, b2, b3, b4, b5]

/-- C3 witness: the supported branch at the mixed-case input "Chest" and the
unsupported branch at "cardio". -/
theorem c3_exercise_lookup_witness :
    (∃ exs r, get_exercise_info "Chest" = .found (pyLower "Chest") exs r ∧ exs ≠ []) ∧
    get_exercise_info "cardio" =
      .unavailable ("Exercise information for " ++ pyLower "cardio" ++ " is not available.") :=
  ⟨(c3_exercise_lookup "Chest").1 (by decide), (c3_exercise_lookup "cardio").2 (by decide)⟩

/-- C10: for every supported muscle group (after case-folding) the returned
record's exercise list has exactly 4 entries and its muscle_group field is the
lower-cased input, not the caller's original casing. -/
theorem c10_exercise_record_shape (s : String) (hmem : pyLower s ∈ supported_groups) :
    ∃ exs r, get_exercise_info s = .found (pyLower s) exs r ∧ exs.length = 4 := by
  simp only [supported_groups, List.mem_cons, List.not_mem_nil, or_false] at hmem
  rcases hmem with h | h | h | h | h
  · exact ⟨chest_exercises,
      "For chest training, complete exercises with 60-90 seconds rest between sets.",
      by unfold get_exercise_info; rw [h]; rfl, by decide⟩
  · exact ⟨back_exercises,
      "For back training, complete exercises with 60-90 seconds rest between sets.",
      by unfold get_exercise_info; rw [h]; rfl, by decide⟩
  · exact ⟨legs_exercises,
      "For legs training, complete exercises with 60-90 seconds rest between sets.",
      by unfold get_exercise_info; rw [h]; rfl, by decide⟩
  · exact ⟨arms_exercises,
      "For arms training, complete exercises with 60-90 seconds rest between sets.",
      by unfold get_exercise_info; rw [h]; rfl, by decide⟩
  · exact ⟨core_exercises,
      "For core training, complete exercises with 60-90 seconds rest between sets.",
      by unfold get_exercise_info; rw [h]; rfl, by decide⟩

/-- C10 witness: the record shape at the upper-cased input "LEGS". -/
theorem c10_exercise_record_shape_witness :
    ∃ exs r, get_exercise_info "LEGS" = .found (pyLower "LEGS") exs r ∧ exs.length = 4 :=
  c10_exercise_record_shape "LEGS" (by decide)

/-- C6 (counterexample): macro grams are not non-negative for every input —
with weight 0, height 0, age 100 and a non-male gender the calorie target is
negative and the protein grams come out as -77. -/
theorem c6_nonneg_counterexample :
    (calculate_calories "maintain" 0 0 100 "x").protein_grams = -77 ∧
    ¬ (0 ≤ (calculate_calories "maintain" 0 0 100 "x").protein_grams) :=
  ⟨by with_unfolding_all rfl, of_decide_eq_false (by with_unfolding_all rfl)⟩

/-- C6 (amended): whenever the computed calorie target is non-negative the
three macro gram values are non-negative; and for every input the total
calorie-equivalent of the macros (protein*4 + fat*9 + carbs*4) is within ±9
(three kcal-equivalent per macro) of the returned daily_calories. -/
theorem c6_macro_bounds (goal gender : String) (w h : ℚ) (a : ℤ) :
    (0 ≤ calorie_target goal w h a gender →
      0 ≤ (calculate_calories goal w h a gender).protein_grams ∧
      0 ≤ (calculate_calories goal w h a gender).fat_grams ∧
      0 ≤ (calculate_calories goal w h a gender).carbs_grams) ∧
    |4 * (calculate_calories goal w h a gender).protein_grams +
      9 * (calculate_calories goal w h a gender).fat_grams +
      4 * (calculate_calories goal w h a gender).carbs_grams -
      (calculate_calories goal w h a gender).daily_calories| ≤ 9 := by
  rcases percent_split_cases goal with hp | hp | hp <;>
    simp only [calculate_calories_eq, hp] <;>
    exact ⟨fun hct =>
      ⟨pyRound_nonneg _ (div_nonneg (mul_nonneg hct (by norm_num)) (by norm_num)),
       pyRound_nonneg _ (div_nonneg (mul_nonneg hct (by norm_num)) (by norm_num)),
       pyRound_nonneg _ (div_nonneg (mul_nonneg hct (by norm_num)) (by norm_num))⟩,
     macro_total_bound _ _ _ _ (by norm_num)⟩

/-- C6 witness: the bounds at the demo's own input, where the calorie target
is the non-negative 2226.0625. -/
theorem c6_macro_bounds_witness :
    (0 ≤ (calculate_calories "weight loss" 80 175 28 "male").protein_grams ∧
     0 ≤ (calculate_calories "weight loss" 80 175 28 "male").fat_grams ∧
     0 ≤ (calculate_calories "weight loss" 80 175 28 "male").carbs_grams) ∧
    |4 * (calculate_calories "weight loss" 80 175 28 "male").protein_grams +
      9 * (calculate_calories "weight loss" 80 175 28 "male").fat_grams +
      4 * (calculate_calories "weight loss" 80 175 28 "male").carbs_grams -
      (calculate_calories "weight loss" 80 175 28 "male").daily_calories| ≤ 9 :=
  ⟨(c6_macro_bounds "weight loss" "male" 80 175 28).1
      (of_decide_eq_true (by with_unfolding_all rfl)),
   (c6_macro_bounds "weight loss" "male" 80 175 28).2⟩

end FitnessPipeline
